import Mathlib

/-!
Verification of the land-only-outline scripts (`sample.py` and
`show_land_outline.py`) against their natural-language specification.

The external geometry library (shapely/GEOS) is modelled discretely: a
geometry is a finite set of integer points (its region) together with a
validity flag.  Set operations act on the region; `buffer0` models the
zero-width-buffer repair as restoring validity while preserving the
region; `area` is the cardinality of the region.  Exception-class
failures of the external union/intersection calls are environment
dependent, so they are modelled by an oracle (`GeoEnv`) saying which
calls raise.  The control flow of the two scripts is translated
line-by-line.
-/

namespace LandOutline

/-- A coordinate, as the (lon, lat) pairs of the scripts; modelled on ℤ. -/
abbrev Coord : Type := ℤ × ℤ

/-- Model of an external-library geometry: a finite region plus the
library's validity flag. -/
structure Geom where
  region : Finset Coord
  valid : Bool

instance : DecidableEq Geom := fun a b =>
  decidable_of_iff (a.region = b.region ∧ a.valid = b.valid)
    (by cases a; cases b; simp)

/-- Model of shapely `is_empty`. -/
def Geom.isEmpty (g : Geom) : Bool := decide (g.region = ∅)

/-- Python truthiness of a geometry object: `bool(g)` is `not g.is_empty`. -/
def Geom.toBool (g : Geom) : Bool := !g.isEmpty

/-- Model of shapely `area`: cardinality of the discrete region. -/
def area (g : Geom) : ℕ := g.region.card

/-- Model of `g.buffer(0)`: restores validity, preserving the region. -/
def buffer0 (g : Geom) : Geom := ⟨g.region, true⟩

/-- The repair idiom of both scripts: `if not g.is_valid: g = g.buffer(0)`. -/
def repair (g : Geom) : Geom := if g.valid then g else buffer0 g

/-- Modelled from the spec: ValidityRepair as specified in §4.2, which
re-checks the buffered result and fails with `UnrepairableGeometry`
(here `none`) when it is still invalid or empty.  This check is absent
from the source; the definition exists to compare spec and code. -/
def repairSpec (g : Geom) : Option Geom :=
  if g.valid then some g
  else
    let b := buffer0 g
    if b.valid && !b.isEmpty then some b else none

/-- Model of `a.difference(b)`. -/
def difference (a b : Geom) : Geom := ⟨a.region \ b.region, true⟩

/-- Model of `a.intersection(b)`. -/
def intersection (a b : Geom) : Geom := ⟨a.region ∩ b.region, true⟩

/-- Model of `shapely.ops.unary_union` on a list of geometries. -/
def unary_union (gs : List Geom) : Geom :=
  ⟨gs.foldl (fun s g => s ∪ g.region) ∅, true⟩

/-- Closing step shared by all ring-building sites:
`if coords[0] != coords[-1]: coords.append(coords[0])`. -/
def closeRing (coords : List Coord) : List Coord :=
  match coords with
  | [] => []
  | c :: rest => if (c :: rest).getLast? = some c then c :: rest else (c :: rest) ++ [c]

/-- The ring-building logic of `fetch_water` (sample.py lines 44-50) and of
the direct-geometry branch of `fetch_place_boundary`
(show_land_outline.py lines 73-75): skip when fewer than 4 raw
coordinates, otherwise close the ring. -/
def ringBuild (coords : List Coord) : Option (List Coord) :=
  if coords.length < 4 then none else some (closeRing coords)

/-- Deduplication of consecutive duplicate coordinates (used only to state
the spec's RingBuilder acceptance criterion; the source has no such step). -/
def dedupConsec : List Coord → List Coord
  | [] => []
  | [a] => [a]
  | a :: b :: rest => if a = b then dedupConsec (b :: rest) else a :: dedupConsec (b :: rest)

/-- Validity model for a freshly constructed polygon: at least three
distinct vertices.  The pipelines only ever branch on this flag, so any
decidable stand-in for the external validity predicate is adequate. -/
def ringValid (coords : List Coord) : Bool := decide (3 ≤ coords.toFinset.card)

/-- Model of the external `Polygon(coords)` constructor: the empty input
gives an empty geometry, a ring that closes to fewer than 4 coordinates
raises (`none`), otherwise the polygon with the vertex set as region. -/
def mkPolygon (coords : List Coord) : Option Geom :=
  if coords.isEmpty then some ⟨∅, true⟩
  else if (closeRing coords).length < 4 then none
  else some ⟨coords.toFinset, ringValid coords⟩

/-- Bounding box of a region, as the filled rectangle of cells between
the coordinate minima and maxima (model of `box(*g.bounds)`). -/
def bboxRect (r : Finset Coord) : Finset Coord :=
  if h : r.Nonempty then
    Finset.product
      (Finset.Icc ((r.image Prod.fst).min' (h.image Prod.fst))
        ((r.image Prod.fst).max' (h.image Prod.fst)))
      (Finset.Icc ((r.image Prod.snd).min' (h.image Prod.snd))
        ((r.image Prod.snd).max' (h.image Prod.snd)))
  else ∅

/-- The spatial filter of show_land_outline.py line 123:
`land_gdf[land_gdf.intersects(bbox_poly)]`, an exact intersects test of
each candidate against the bounding-box polygon. -/
def prefilter (land : List Geom) (bboxPoly : Finset Coord) : List Geom :=
  land.filter (fun g => decide (g.region ∩ bboxPoly).Nonempty)

/-- Oracle saying which calls to the external library raise an
exception-class failure (numerically degenerate input). -/
structure GeoEnv where
  unionRaises : List Geom → Bool
  interRaises : Geom → Geom → Bool
  featRaises : Geom → Geom → Bool

/-- Errors that escape the scripts, tagged by what raised where. -/
inductive Err where
  /-- `RuntimeError` of show_land_outline.py line 85 (no boundary geometry). -/
  | boundaryNotFound
  /-- `AttributeError` from `None.bounds` in `fetch_water` (sample.py line 25). -/
  | attributeError
  /-- `ValueError` from the unprotected `Polygon(coords)` of sample.py line 20. -/
  | valueError
  /-- an unprotected `unary_union` call raised. -/
  | unionError
deriving DecidableEq

/-- A member of a relation element in the sample.py Overpass response
(sample.py assumes every member carries its geometry). -/
structure SMember where
  type : String
  geometry : List Coord

/-- A raw element of the sample.py boundary response. -/
structure SRel where
  type : String
  members : List SMember

/-- sample.py line 19: concatenate the coordinates of all way members. -/
def srelCoords (el : SRel) : List Coord :=
  el.members.flatMap (fun m => if m.type == "way" then m.geometry else [])

/-- sample.py `fetch_place_boundary` (lines 17-21): the first relation
element wins; `Polygon(coords)` is not wrapped in try, so a degenerate
coordinate list raises; no relation at all returns `None`. -/
def fetch_place_boundary_s (els : List SRel) : Except Err (Option Geom) :=
  match els.find? (fun el => el.type == "relation") with
  | none => .ok none
  | some el =>
    match mkPolygon (srelCoords el) with
    | none => .error .valueError
    | some p => .ok (some p)

/-- A raw element of the sample.py water response. -/
structure WElem where
  geometry : Option (List Coord)

/-- sample.py `fetch_water` element loop (lines 40-58): ring building,
then a protected `Polygon` construction, then the validity/emptiness
filter; any failure skips the one feature. -/
def waterPolys (els : List WElem) : List Geom :=
  els.filterMap fun el =>
    match el.geometry with
    | none => none
    | some coords =>
      match ringBuild coords with
      | none => none
      | some ring =>
        match mkPolygon ring with
        | none => none
        | some poly => if poly.valid && !poly.isEmpty then some poly else none

/-- sample.py `fetch_water` (lines 24-60): reads `boundary.bounds` first,
so a `None` boundary raises `AttributeError`; the final
`unary_union(water_polys) if water_polys else None` is unprotected. -/
def fetch_water (env : GeoEnv) (boundary : Option Geom) (els : List WElem) :
    Except Err (Option Geom) :=
  match boundary with
  | none => .error .attributeError
  | some _ =>
    let polys := waterPolys els
    if polys.isEmpty then .ok none
    else if env.unionRaises polys then .error .unionError
    else .ok (some (unary_union polys))

/-- sample.py lines 67-75: the compose step of the subtract pipeline.
`if boundary and water:` is Python truthiness; both operands are
repaired before the difference; otherwise the boundary is returned. -/
def land_only_compose (boundary water : Option Geom) : Option Geom :=
  match boundary, water with
  | some b, some w =>
    if b.toBool && w.toBool then some (difference (repair b) (repair w))
    else some b
  | b, _ => b

/-- sample.py `land_only_boundary` (lines 64-75): the subtract pipeline. -/
def land_only_boundary (env : GeoEnv) (bEls : List SRel) (wEls : List WElem) :
    Except Err (Option Geom) := do
  let boundary ← fetch_place_boundary_s bEls
  let water ← fetch_water env boundary wEls
  pure (land_only_compose boundary water)

/-- A member of a relation in the show_land_outline.py response; its
geometry key may be absent. -/
structure OMember where
  type : String
  geometry : Option (List Coord)

/-- A raw element of the show_land_outline.py boundary response; both the
`members` and the `geometry` key may be present or absent. -/
structure OElem where
  type : String
  members : Option (List OMember)
  geometry : Option (List Coord)

/-- show_land_outline.py lines 56-59: coordinates of all way members that
carry geometry, concatenated. -/
def memberCoords (ms : List OMember) : List Coord :=
  ms.flatMap fun m =>
    match m.geometry with
    | some g => if m.type == "way" then g else []
    | none => []

/-- The protected `Polygon` construction plus validity/emptiness filter
shared by both extraction branches (lines 64-69 and 76-81). -/
def tryPolyFiltered (ring : List Coord) : List Geom :=
  match mkPolygon ring with
  | none => []
  | some poly => if poly.valid && !poly.isEmpty then [poly] else []

/-- The member-ways extraction branch (show_land_outline.py lines 52-69):
note there is no minimum-length check before closing the ring. -/
def membersBranch (el : OElem) : List Geom :=
  match el.members with
  | some ms =>
    if el.type == "relation" then
      let coords := memberCoords ms
      if coords.isEmpty then [] else tryPolyFiltered (closeRing coords)
    else []
  | none => []

/-- The direct-geometry extraction branch (show_land_outline.py lines
71-81), with the `len(coords) >= 4` check and ring closing. -/
def directBranch (el : OElem) : List Geom :=
  match el.geometry with
  | some coords =>
    if el.type == "relation" then
      match ringBuild coords with
      | none => []
      | some ring => tryPolyFiltered ring
    else []
  | none => []

/-- The per-element extractor of show_land_outline.py lines 49-81,
translated as written: two independent `if` blocks, each appending to
the accumulator. -/
def extractGeoms (el : OElem) : List Geom :=
  let acc : List Geom := []
  let acc :=
    match el.members with
    | some ms =>
      if el.type == "relation" then
        let coords := memberCoords ms
        if coords.isEmpty then acc else acc ++ tryPolyFiltered (closeRing coords)
      else acc
    | none => acc
  let acc :=
    match el.geometry with
    | some coords =>
      if el.type == "relation" then
        match ringBuild coords with
        | none => acc
        | some ring => acc ++ tryPolyFiltered ring
      else acc
    | none => acc
  acc

/-- All geometries collected over the element list (lines 49-81). -/
def geomsOf (els : List OElem) : List Geom := els.flatMap extractGeoms

/-- show_land_outline.py `fetch_place_boundary` (lines 33-88): empty
collection raises the `BoundaryNotFound` RuntimeError; a single polygon
is returned as is; several are unioned (unprotected call). -/
def fetch_place_boundary_o (env : GeoEnv) (els : List OElem) : Except Err Geom :=
  match geomsOf els with
  | [] => .error .boundaryNotFound
  | [g] => .ok g
  | gs => if env.unionRaises gs then .error .unionError else .ok (unary_union gs)

/-- show_land_outline.py lines 135-139: the compose step of the clamp
pipeline; `if land_union:` is Python truthiness, so `None` and the empty
geometry both fall back to the unclamped boundary. -/
def clampCompose (boundary : Geom) (land_union : Option Geom) : Geom :=
  match land_union with
  | none => boundary
  | some u => if u.toBool then intersection boundary u else boundary

/-- Whether the try block of lines 133-139 raises: `unary_union` is only
called on a non-empty subset, and the intersection only on a truthy
union. -/
def batchRaises (env : GeoEnv) (boundary : Geom) (subset : List Geom) : Bool :=
  !subset.isEmpty &&
    (env.unionRaises subset ||
      ((unary_union subset).toBool && env.interRaises boundary (unary_union subset)))

/-- The except-branch recovery of lines 142-149: intersect each filtered
candidate with the boundary individually, skipping a candidate whose
intersection raises or is empty. -/
def perFeatureParts (env : GeoEnv) (boundary : Geom) (subset : List Geom) : List Geom :=
  subset.filterMap fun g =>
    if env.featRaises g boundary then none
    else
      let i := intersection g boundary
      if i.isEmpty then none else some i

/-- Modelled from the spec: the pipeline result record `Success(geometry,
usedFallback)` of §6; the scripts report the fallback only through a
printed message and the `# fallback` branch, so the flag records
whether such a fallback branch produced the result. -/
structure ClampResult where
  geom : Geom
  usedFallback : Bool

instance : DecidableEq ClampResult := fun a b =>
  decidable_of_iff (a.geom = b.geom ∧ a.usedFallback = b.usedFallback)
    (by cases a; cases b; simp)

instance {ε α : Type} [DecidableEq ε] [DecidableEq α] : DecidableEq (Except ε α) :=
  fun a b =>
    match a, b with
    | .error e, .error f => decidable_of_iff (e = f) (by simp)
    | .ok x, .ok y => decidable_of_iff (x = y) (by simp)
    | .error _, .ok _ => isFalse (fun h => Except.noConfusion h)
    | .ok _, .error _ => isFalse (fun h => Except.noConfusion h)

/-- show_land_outline.py `main` lines 109-154 (the geometry pipeline):
repair the boundary, prefilter by the bounding-box polygon, try the
batch union+intersection, recover per-feature on exception (the
concluding `unary_union(parts)` on line 150 is itself unprotected), and
repair the final geometry when invalid. -/
def clampPipeline (env : GeoEnv) (b0 : Geom) (land : List Geom) :
    Except Err ClampResult :=
  let boundary := repair b0
  let subset := prefilter land (bboxRect boundary.region)
  if batchRaises env boundary subset then
    let parts := perFeatureParts env boundary subset
    if parts.isEmpty then .ok ⟨repair boundary, true⟩
    else if env.unionRaises parts then .error .unionError
    else .ok ⟨repair (unary_union parts), true⟩
  else
    let land_union := if subset.isEmpty then none else some (unary_union subset)
    let usedFallback :=
      match land_union with
      | none => true
      | some u => !u.toBool
    .ok ⟨repair (clampCompose boundary land_union), usedFallback⟩

/-- The clamp pipeline from the raw boundary elements (show_land_outline.py
`main`): fetch and build the boundary, then clamp against the land
collection; a boundary failure propagates before any later stage runs. -/
def mainPipeline (env : GeoEnv) (bEls : List OElem) (land : List Geom) :
    Except Err ClampResult := do
  let b ← fetch_place_boundary_o env bEls
  clampPipeline env b land

/-- Environment in which no external call raises. -/
def noFailEnv : GeoEnv := ⟨fun _ => false, fun _ _ => false, fun _ _ => false⟩

/-- Environment in which every external union/intersection call raises. -/
def unionFailEnv : GeoEnv := ⟨fun _ => true, fun _ _ => true, fun _ _ => true⟩

/-- Environment in which only the batch intersection raises. -/
def interFailEnv : GeoEnv := ⟨fun _ => false, fun _ _ => true, fun _ _ => false⟩

/-- A one-point valid geometry. -/
def unitGeom : Geom := ⟨{((0:ℤ), (0:ℤ))}, true⟩

/-- A boundary whose bounding box is the square 0..2 but whose region is
only its two diagonal corners. -/
def diagBoundary : Geom := ⟨{((0:ℤ), (0:ℤ)), (2, 2)}, true⟩

/-- A land candidate on the opposite diagonal: its bounding box meets the
boundary's, but the two regions are disjoint. -/
def antiDiagLand : Geom := ⟨{((0:ℤ), (2:ℤ)), (2, 0)}, true⟩

/-- A candidate whose bounding box meets the 0..2 box while its region is
entirely outside that box. -/
def spreadCand : Geom := ⟨{((0:ℤ), (-1:ℤ)), (3, 3)}, true⟩

/-- A water element carrying an open square ring of 4 coordinates. -/
def squareEl : WElem := ⟨some [((0:ℤ), (0:ℤ)), (4, 0), (4, 4), (0, 4)]⟩

/-- A boundary relation element for sample.py with one way member. -/
def relEl : SRel := ⟨"relation", [⟨"way", [((0:ℤ), (0:ℤ)), (10, 0), (10, 10), (0, 10)]⟩]⟩

/-- A relation element carrying both a member-ways geometry and a direct
geometry, so both extraction branches fire. -/
def bothEl : OElem :=
  ⟨"relation", some [⟨"way", some [((0:ℤ), (0:ℤ)), (5, 0), (5, 5), (0, 5)]⟩],
    some [((0:ℤ), (0:ℤ)), (6, 0), (6, 6), (0, 6)]⟩

/-- An invalid geometry with an empty region: its zero-buffer is empty. -/
def invalidEmpty : Geom := ⟨∅, false⟩

/-- Every point of a region lies in the region's bounding-box rectangle. -/
theorem mem_bboxRect {r : Finset Coord} {p : Coord} (hp : p ∈ r) : p ∈ bboxRect r := by
  have hne : r.Nonempty := ⟨p, hp⟩
  unfold bboxRect
  rw [dif_pos hne]
  rcases p with ⟨x, y⟩
  refine Finset.mem_product.2 ⟨Finset.mem_Icc.2 ⟨?_, ?_⟩, Finset.mem_Icc.2 ⟨?_, ?_⟩⟩
  · exact Finset.min'_le _ _ (Finset.mem_image_of_mem Prod.fst hp)
  · exact Finset.le_max' _ _ (Finset.mem_image_of_mem Prod.fst hp)
  · exact Finset.min'_le _ _ (Finset.mem_image_of_mem Prod.snd hp)
  · exact Finset.le_max' _ _ (Finset.mem_image_of_mem Prod.snd hp)

/-- Every geometry kept by `tryPolyFiltered` passed the validity and
non-emptiness check. -/
theorem tryPolyFiltered_sound {ring : List Coord} {g : Geom}
    (hg : g ∈ tryPolyFiltered ring) : g.valid = true ∧ g.isEmpty = false := by
  unfold tryPolyFiltered at hg
  rcases hmp : mkPolygon ring with _ | poly <;> rw [hmp] at hg
  · simp at hg
  · simp at hg
    obtain ⟨⟨h1, h2⟩, rfl⟩ := hg
    exact ⟨h1, h2⟩

/-- The per-element extractor is the concatenation of its two branches. -/
theorem extractGeoms_eq (el : OElem) :
    extractGeoms el = membersBranch el ++ directBranch el := by
  rcases el with ⟨t, ms, gc⟩
  simp only [extractGeoms, membersBranch, directBranch]
  cases ms <;> cases gc <;> simp only [] <;>
    repeat' first
      | rfl
      | (split <;> simp_all)

/-- Repair preserves the region of a geometry. -/
theorem repair_region (g : Geom) : (repair g).region = g.region := by
  unfold repair buffer0
  split <;> rfl

/-- C1: when the reduced candidate geometry is `None` (no water polygons
found, or the filtered land collection empty), the compose step returns
the boundary unchanged for both DIFFERENCE and INTERSECTION, and the
clamp pipeline on an empty candidate collection returns the boundary
unchanged with `usedFallback = true`. -/
theorem c1_compose_none_identity :
    (∀ b : Option Geom, land_only_compose b none = b) ∧
    (∀ b : Geom, clampCompose b none = b) ∧
    (∀ (env : GeoEnv) (b : Geom), b.valid = true →
      clampPipeline env b [] = .ok ⟨b, true⟩) := by
  refine ⟨fun b => by cases b <;> rfl, fun b => rfl, fun env b h => ?_⟩
  simp [clampPipeline, prefilter, batchRaises, repair, h, clampCompose]

/-- Witness for C1: the clamp pipeline on the valid one-point boundary and
an empty land collection. -/
theorem c1_witness : clampPipeline noFailEnv unitGeom [] = .ok ⟨unitGeom, true⟩ :=
  c1_compose_none_identity.2.2 noFailEnv unitGeom rfl

/-- C2: compose never increases area: the difference compose of the
subtract pipeline and the intersection compose of the clamp pipeline
both yield a geometry whose area is at most the boundary's. -/
theorem c2_compose_area_monotone (b g : Geom) :
    (∀ r : Geom, land_only_compose (some b) (some g) = some r → area r ≤ area b) ∧
    area (clampCompose b (some g)) ≤ area b := by
  constructor
  · intro r hr
    simp only [land_only_compose] at hr
    split at hr
    · injection hr with hr
      subst hr
      unfold area difference
      rw [repair_region, repair_region]
      exact Finset.card_le_card (Finset.sdiff_subset)
    · injection hr with hr
      subst hr
      exact le_refl _
  · simp only [clampCompose]
    split
    · exact Finset.card_le_card (Finset.inter_subset_left)
    · exact le_refl _

/-- Witness for C2: the difference compose at two concrete geometries. -/
theorem c2_witness : area (difference diagBoundary antiDiagLand) ≤ area diagBoundary :=
  (c2_compose_area_monotone diagBoundary antiDiagLand).1 _ (by decide)

/-- C3 counterexample: the open triangle has 3 distinct coordinates after
deduplication of consecutive duplicates, so the claimed RingBuilder
contract says it must be accepted, but the code rejects it (the check
is on the raw length being below 4). -/
theorem c3_counterexample :
    ¬ (((ringBuild [((0:ℤ), (0:ℤ)), (1, 0), (0, 1)]).isNone = true) ↔
        (dedupConsec [((0:ℤ), (0:ℤ)), (1, 0), (0, 1)]).length < 3) := by decide

/-- C3 (amended): building the ring fails exactly when the raw coordinate
sequence has fewer than 4 points (duplicates counted); every ring
produced is closed with first coordinate equal to last and has at least
4 points, the closing point being appended exactly when the input was
not already closed. -/
theorem c3_ring_contract (coords r : List Coord) :
    ((ringBuild coords).isSome = true ↔ 4 ≤ coords.length) ∧
    (ringBuild coords = some r →
      r.head? = r.getLast? ∧ 4 ≤ r.length ∧
      (coords.head? = coords.getLast? → r = coords) ∧
      (coords.head? ≠ coords.getLast? → r = coords ++ coords.head?.toList)) := by
  constructor
  · unfold ringBuild
    split
    · simpa using by omega
    · simpa using by omega
  · intro h
    unfold ringBuild at h
    split at h
    · exact absurd h (by simp)
    · rename_i hlen
      have h4 : 4 ≤ coords.length := by omega
      injection h with h
      subst h
      rcases coords with _ | ⟨c, rest⟩
      · simp at h4
      · simp only [closeRing]
        by_cases hcl : (c :: rest).getLast? = some c
        · rw [if_pos hcl]
          refine ⟨by simp [hcl], by simpa using h4, fun _ => rfl, fun hne => ?_⟩
          exact absurd (by simp [hcl]) hne
        · rw [if_neg hcl]
          refine ⟨?_, ?_, fun heq => ?_, fun _ => by simp⟩
          · rw [List.getLast?_concat]
            rfl
          · simp only [List.length_append, List.length_cons]
            simp at h4 ⊢
            omega
          · exact absurd (by simpa using heq.symm) hcl

/-- Witness for C3: the contract applied to an open square ring of four
coordinates, whose built ring is closed. -/
theorem c3_witness :
    ([((0:ℤ), (0:ℤ)), (1, 0), (1, 1), (0, 1), (0, 0)] : List Coord).head? =
      ([((0:ℤ), (0:ℤ)), (1, 0), (1, 1), (0, 1), (0, 0)] : List Coord).getLast? :=
  ((c3_ring_contract [((0:ℤ), (0:ℤ)), (1, 0), (1, 1), (0, 1)]
      [((0:ℤ), (0:ℤ)), (1, 0), (1, 1), (0, 1), (0, 0)]).2 (by decide)).1

/-- Repair always yields a geometry carrying the valid flag. -/
theorem repair_valid (g : Geom) : (repair g).valid = true := by
  unfold repair buffer0
  split
  · assumption
  · rfl

/-- C4 counterexample: with a boundary and a land candidate whose bounding
boxes overlap but whose regions are disjoint, the clamp pipeline
succeeds with an empty geometry, so the returned geometry does not
always satisfy `not is_empty`; nor is any repair applied after the
union step. -/
theorem c4_counterexample :
    clampPipeline noFailEnv diagBoundary [antiDiagLand] = .ok ⟨⟨∅, true⟩, false⟩ ∧
    (⟨∅, true⟩ : Geom).isEmpty = true := by decide

/-- C4 (amended): repair is applied to the boundary after construction and
to the final geometry when invalid, so every successful clamp-pipeline
result carries the valid flag; but candidate polygons are filtered
rather than repaired, no repair follows the union step, and the final
geometry may be empty. -/
theorem c4_final_validity (env : GeoEnv) (b0 : Geom) (land : List Geom)
    (res : ClampResult) (h : clampPipeline env b0 land = .ok res) :
    res.geom.valid = true := by
  simp only [clampPipeline] at h
  split at h
  · split at h
    · injection h with h
      subst h
      exact repair_valid _
    · split at h
      · exact Except.noConfusion h
      · injection h with h
        subst h
        exact repair_valid _
  · injection h with h
    subst h
    exact repair_valid _

/-- Witness for C4: the one-point boundary with no land candidates. -/
theorem c4_witness : unitGeom.valid = true :=
  c4_final_validity noFailEnv unitGeom [] ⟨unitGeom, true⟩ (by decide)

/-- C5 counterexample: on the invalid empty geometry the spec-modelled
repair fails with UnrepairableGeometry (`none`), but the code's repair
returns the still-empty zero-buffer result instead of failing. -/
theorem c5_counterexample :
    repairSpec invalidEmpty = none ∧
    repair invalidEmpty = buffer0 invalidEmpty ∧
    (buffer0 invalidEmpty).isEmpty = true := by decide

/-- C5 (amended): if the polygon is valid, repair returns it unchanged;
otherwise repair returns the zero-distance buffer unconditionally,
with no re-check of validity or emptiness and no failure path; the
returned geometry always carries the valid flag. -/
theorem c5_repair_total (g : Geom) :
    (g.valid = true → repair g = g) ∧
    (g.valid = false → repair g = buffer0 g) ∧
    (repair g).valid = true := by
  refine ⟨fun h => ?_, fun h => ?_, repair_valid g⟩
  · unfold repair
    rw [if_pos h]
  · unfold repair
    rw [if_neg (by simp [h])]

/-- Witness for C5: repair leaves the valid one-point geometry unchanged. -/
theorem c5_witness : repair unitGeom = unitGeom := (c5_repair_total unitGeom).1 rfl

/-- C6 counterexample: sample.py calls `unary_union` with no protection, so
a batch-union failure on a non-empty candidate collection is fatal to
the subtract pipeline; there is no sequential recovery. -/
theorem c6_counterexample :
    land_only_boundary unionFailEnv [relEl] [squareEl] = .error .unionError := by decide

/-- C6 (amended): in the clamp pipeline, when the batch union/intersection
stage raises, recovery intersects each filtered candidate with the
boundary individually, skipping candidates whose intersection raises
or is empty, and unions the survivors (returning the repaired boundary
when none survive); in sample.py a batch-union failure has no recovery
and is fatal. -/
theorem c6_clamp_recovery (env : GeoEnv) (b0 : Geom) (land : List Geom)
    (h : batchRaises env (repair b0) (prefilter land (bboxRect (repair b0).region)) = true)
    (h2 : env.unionRaises
      (perFeatureParts env (repair b0) (prefilter land (bboxRect (repair b0).region))) = false) :
    clampPipeline env b0 land =
      if (perFeatureParts env (repair b0)
          (prefilter land (bboxRect (repair b0).region))).isEmpty then
        .ok ⟨repair (repair b0), true⟩
      else
        .ok ⟨repair (unary_union (perFeatureParts env (repair b0)
          (prefilter land (bboxRect (repair b0).region)))), true⟩ := by
  simp only [clampPipeline, h, if_true]
  split
  · rfl
  · simp [h2]

/-- Witness for C6: recovery at a concrete boundary and single candidate in
the environment where only the batch intersection raises. -/
theorem c6_witness :
    clampPipeline interFailEnv unitGeom [unitGeom] =
      .ok ⟨⟨{((0:ℤ), (0:ℤ))}, true⟩, true⟩ := by
  rw [c6_clamp_recovery interFailEnv unitGeom [unitGeom] (by decide) (by decide)]
  decide

/-- C7 counterexample: a candidate whose bounding box meets the target
bounding box but whose region misses the filled box polygon is
excluded, so the filter does not decide by bounding-box intersection
and exclusion does not imply a disjoint bounding box. -/
theorem c7_counterexample :
    prefilter [spreadCand] (bboxRect diagBoundary.region) = [] ∧
    ((bboxRect spreadCand.region) ∩ (bboxRect diagBoundary.region)).Nonempty := by decide

/-- C7 (amended): the filter keeps exactly the candidates whose region
meets the filled bounding-box rectangle of the boundary — an exact
intersects test against the box polygon, not a box-versus-box test;
in particular every candidate that meets the boundary itself is kept,
so no contributing candidate is excluded. -/
theorem c7_prefilter_exact (land : List Geom) (box : Finset Coord) (g : Geom) :
    (g ∈ prefilter land box ↔ g ∈ land ∧ (g.region ∩ box).Nonempty) ∧
    (∀ b : Geom, g ∈ land → (g.region ∩ b.region).Nonempty →
      g ∈ prefilter land (bboxRect b.region)) := by
  constructor
  · unfold prefilter
    rw [List.mem_filter]
    simp
  · intro b hg hne
    obtain ⟨p, hp⟩ := hne
    rcases Finset.mem_inter.1 hp with ⟨hpg, hpb⟩
    unfold prefilter
    rw [List.mem_filter]
    refine ⟨hg, ?_⟩
    simp only [decide_eq_true_eq]
    exact ⟨p, Finset.mem_inter.2 ⟨hpg, mem_bboxRect hpb⟩⟩

/-- Witness for C7: a candidate meeting its own region is kept by the
filter over its own bounding box. -/
theorem c7_witness :
    spreadCand ∈ prefilter [spreadCand] (bboxRect spreadCand.region) :=
  (c7_prefilter_exact [spreadCand] ∅ spreadCand).2 spreadCand (by decide) (by decide)

/-- C8 counterexample: in sample.py a boundary source with zero usable
elements does not fail with BoundaryNotFound at the build-boundary
stage; the missing boundary propagates as `None` into the water-fetch
stage, which raises an attribute error on `None.bounds`. -/
theorem c8_counterexample :
    land_only_boundary noFailEnv [] [squareEl] = .error .attributeError ∧
    Err.attributeError ≠ Err.boundaryNotFound := by decide

/-- C8 (amended): in show_land_outline.py, zero collected boundary
geometries make `fetch_place_boundary` raise BoundaryNotFound before
any later stage runs; in sample.py, a boundary source with no relation
element yields `None` and the run fails later, inside the water-fetch
stage, with an attribute error. -/
theorem c8_zero_boundary (env : GeoEnv) (bo : List OElem) (bs : List SRel)
    (land : List Geom) (wEls : List WElem) :
    (geomsOf bo = [] → mainPipeline env bo land = .error .boundaryNotFound) ∧
    (fetch_place_boundary_s bs = .ok none →
      land_only_boundary env bs wEls = .error .attributeError) := by
  constructor
  · intro h
    unfold mainPipeline fetch_place_boundary_o
    rw [h]
    rfl
  · intro h
    unfold land_only_boundary
    rw [h]
    rfl

/-- Witness for C8: empty element lists for the clamp pipeline. -/
theorem c8_witness : mainPipeline noFailEnv [] [] = .error .boundaryNotFound :=
  (c8_zero_boundary noFailEnv [] [] [] []).1 rfl

/-- C9 counterexample: an element carrying both member-way coordinates and
a direct geometry yields two polygons, so a single element can yield
more than one polygon and the strategies are not first-success-wins. -/
theorem c9_counterexample : ¬ ((extractGeoms bothEl).length ≤ 1) := by decide

/-- C9 (amended): the two extraction strategies are independent `if`
blocks and both run for every element: an element's contribution is
the concatenation of the member-ways branch and the direct-geometry
branch, so an element on which both succeed yields two polygons. -/
theorem c9_both_strategies (el : OElem) :
    extractGeoms el = membersBranch el ++ directBranch el ∧
    (membersBranch el ≠ [] → directBranch el ≠ [] →
      2 ≤ (extractGeoms el).length) := by
  refine ⟨extractGeoms_eq el, fun h1 h2 => ?_⟩
  rw [extractGeoms_eq el, List.length_append]
  have l1 : 0 < (membersBranch el).length := List.length_pos.2 h1
  have l2 : 0 < (directBranch el).length := List.length_pos.2 h2
  omega

/-- Witness for C9: the element with both extraction sources. -/
theorem c9_witness : 2 ≤ (extractGeoms bothEl).length :=
  (c9_both_strategies bothEl).2 (by decide) (by decide)

/-- Every geometry produced by the member-ways branch passed the validity
and non-emptiness check. -/
theorem membersBranch_sound {el : OElem} {g : Geom} (h : g ∈ membersBranch el) :
    g.valid = true ∧ g.isEmpty = false := by
  unfold membersBranch at h
  split at h
  · split at h
    · simp only at h
      split at h
      · exact absurd h (List.not_mem_nil g)
      · exact tryPolyFiltered_sound h
    · exact absurd h (List.not_mem_nil g)
  · exact absurd h (List.not_mem_nil g)

/-- Every geometry produced by the direct-geometry branch passed the
validity and non-emptiness check. -/
theorem directBranch_sound {el : OElem} {g : Geom} (h : g ∈ directBranch el) :
    g.valid = true ∧ g.isEmpty = false := by
  unfold directBranch at h
  split at h
  · split at h
    · split at h
      · exact absurd h (List.not_mem_nil g)
      · exact tryPolyFiltered_sound h
    · exact absurd h (List.not_mem_nil g)
  · exact absurd h (List.not_mem_nil g)

/-- C10: every polygon appended to the water or boundary-piece collections
satisfies `is_valid` and not `is_empty` at insertion; a coordinate
sequence whose construction raises or whose polygon is invalid or
empty is silently skipped, and skipping one feature never aborts the
remaining features (ingestion distributes over concatenation of the
element lists). -/
theorem c10_ingestion_invariant :
    (∀ (els : List WElem), ∀ g ∈ waterPolys els, g.valid = true ∧ g.isEmpty = false) ∧
    (∀ (els : List OElem), ∀ g ∈ geomsOf els, g.valid = true ∧ g.isEmpty = false) ∧
    (∀ (a b : List WElem), waterPolys (a ++ b) = waterPolys a ++ waterPolys b) ∧
    (∀ (a b : List OElem), geomsOf (a ++ b) = geomsOf a ++ geomsOf b) := by
  refine ⟨?_, ?_, ?_, ?_⟩
  · intro els g hg
    unfold waterPolys at hg
    rw [List.mem_filterMap] at hg
    obtain ⟨el, _, hel⟩ := hg
    split at hel
    · exact Option.noConfusion hel
    · split at hel
      · exact Option.noConfusion hel
      · split at hel
        · exact Option.noConfusion hel
        · split at hel
          · rename_i poly hcond
            injection hel with hel
            subst hel
            simp at hcond
            exact hcond
          · exact Option.noConfusion hel
  · intro els g hg
    unfold geomsOf at hg
    rw [List.mem_flatMap] at hg
    obtain ⟨el, _, hel⟩ := hg
    rw [extractGeoms_eq] at hel
    rcases List.mem_append.1 hel with h | h
    · exact membersBranch_sound h
    · exact directBranch_sound h
  · intro a b
    unfold waterPolys
    exact List.filterMap_append a b _
  · intro a b
    unfold geomsOf
    exact List.flatMap_append a b extractGeoms

/-- Witness for C10: the square water element's ingested polygon is valid
and non-empty. -/
theorem c10_witness :
    (⟨({((0:ℤ), (0:ℤ)), (4, 0), (4, 4), (0, 4)} : Finset Coord), true⟩ : Geom).valid = true ∧
    (⟨({((0:ℤ), (0:ℤ)), (4, 0), (4, 4), (0, 4)} : Finset Coord), true⟩ : Geom).isEmpty = false :=
  c10_ingestion_invariant.1 [squareEl] _ (by decide)

end LandOutline
